import Mathlib

/-!
Shallow embedding of the `ezmenulib` value-acquisition core
(`src/field.rs`, `src/menu.rs`): the Written-field retry engine
(`ValueField::build_until`), the Selected-field matching engine
(`select`, `SelectMenu::next_output`), the default-value resolution
(`default_parse` in both files) and the formatting-merge
(`ValueField::fmt` / `inherit_fmt`), together with the menu container
(`ValueMenu::next_field` / `next_output`).

Machine integers are modelled as `Nat` with the explicit overflow bound of
the Rust integer parse; fallible code returns `Except`; the process abort
of `default_parse_failed` is a distinct `BuildResult.panicked` outcome.
The bidirectional stream (`src/menu/stream.rs`, absent from the sources)
is modelled from the spec's stream contract: `read_line` yields the next
line, and end-of-input is a zero-length read without error.
-/

namespace Ezmenu

/-- Opaque payload of a `std::io::Error` (only propagated, never inspected). -/
abbrev IOErr := String

/-- The library error type `MenuError` (its defining module is not among the
sources; constructors are modelled from their use sites in `field.rs` /
`menu.rs` and the spec's error taxonomy).  `Parse` carries the raw input
(the boxed parse error is type-erased and never inspected); `Select` carries
the raw unmatched input; `Other` carries a formatted message (used by
`err_idx` / `err_ty` via `MenuError::from`). -/
inductive MenuError where
  | IOError (e : IOErr)
  | EnvVar (var : String)
  | Parse (raw : String)
  | Select (raw : String)
  | NoMoreField
  | Other (msg : String)
deriving Repr, DecidableEq

/-- Modelled from the spec: the paired readable/writable channel
(`MenuStream`, `src/menu/stream.rs` is missing from the sources).
`lines` is the pending input, one entry per line typed before Enter;
`written` is the chronological write transcript; `errs` is a schedule of
I/O outcomes, one entry consumed per primitive operation (`none` = the
operation succeeds, `some e` = it fails with `e`; an exhausted schedule
means every further operation succeeds).  Per the spec's stream contract,
reading at end of input is a zero-length read without error, so `read_line`
on an empty `lines` yields `""`. -/
structure MenuStream where
  lines : List String
  written : List String
  errs : List (Option IOErr)
deriving Repr, DecidableEq

/-- Consumes the next entry of the I/O outcome schedule. -/
def MenuStream.popErr (s : MenuStream) : Option IOErr × MenuStream :=
  match s.errs with
  | [] => (none, s)
  | e :: rest => (e, { s with errs := rest })

/-- One `write` / `write_all` operation on the stream. -/
def MenuStream.writeOp (s : MenuStream) (txt : String) :
    Except IOErr Unit × MenuStream :=
  match s.popErr with
  | (some e, s) => (.error e, s)
  | (none, s) => (.ok (), { s with written := s.written ++ [txt] })

/-- One `flush` operation on the stream. -/
def MenuStream.flushOp (s : MenuStream) : Except IOErr Unit × MenuStream :=
  match s.popErr with
  | (some e, s) => (.error e, s)
  | (none, s) => (.ok (), s)

/-- One `read_line` operation on the stream: yields the next pending line,
or the zero-length read `""` at end of input. -/
def MenuStream.readOp (s : MenuStream) : Except IOErr String × MenuStream :=
  match s.popErr with
  | (some e, s) => (.error e, s)
  | (none, s) =>
    match s.lines with
    | [] => (.ok "", s)
    | l :: rest => (.ok l, { s with lines := rest })

/-- `ValueFieldFormatting` (`field.rs`): chip, input prefix (field renamed
`pref` here), line-break flag `new_line`, and the show-default flag
`default`. -/
structure ValueFieldFormatting where
  chip : String
  pref : String
  new_line : Bool
  default : Bool
deriving Repr, DecidableEq

/-- The `Default` impl of `ValueFieldFormatting`: chip `"--> "`, prefix
`">> "`, `new_line = true`, `default = true`. -/
def ValueFieldFormatting.mkDefault : ValueFieldFormatting :=
  { chip := "--> ", pref := ">> ", new_line := true, default := true }

/-- `DefaultValue` (`field.rs`): a literal default string or the resolved
content of an environment variable. -/
inductive DefaultValue where
  | Value (s : String)
  | Env (s : String)
deriving Repr, DecidableEq

/-- The underlying text of a default value. -/
def DefaultValue.text : DefaultValue → String
  | .Value s => s
  | .Env s => s

/-- `DefaultValue::env` (`field.rs`): environment lookup at construction
time, failing with `MenuError::EnvVar` when the variable is absent.  The
process environment is passed as an explicit lookup function. -/
def DefaultValue.env (lookup : String → Option String) (var : String) :
    Except MenuError DefaultValue :=
  match lookup var with
  | some s => .ok (.Env s)
  | none => .error (.EnvVar var)

/-- The `Display` impl of `DefaultValue`: `default: <text>`. -/
def DefaultValue.render (d : DefaultValue) : String :=
  "default: " ++ d.text

/-- `FieldDetails` (`field.rs`): optional example (source field `example`,
a reserved word in Lean, renamed `exmpl`), optional default, and whether
the default is displayed. -/
structure FieldDetails where
  exmpl : Option String
  default : Option DefaultValue
  show_d : Bool
deriving Repr, DecidableEq

/-- The `Display` impl of `FieldDetails` (the ` (example: .., default: ..)`
annotation).  The early return and the guarded match arms of the source are
translated as nested conditionals; the source's `unreachable!()` arm (both
components absent) cannot be reached past the early return and is rendered
as the empty string. -/
def FieldDetails.render (d : FieldDetails) : String :=
  if (d.exmpl.isNone && d.default.isNone) || (d.exmpl.isNone && !d.show_d)
  then ""
  else
    " (" ++
    (match d.default, d.exmpl with
     | some dv, none => if d.show_d then dv.render else ""
     | some dv, some e =>
       if d.show_d then "example: " ++ e ++ ", " ++ dv.render
       else "example: " ++ e
     | none, some e => "example: " ++ e
     | none, none => "") ++ ")"

/-- `ValueField` (`field.rs`): message, formatting, the caller-customized
flag, and the example/default details. -/
structure ValueField where
  msg : String
  fmt : ValueFieldFormatting
  custom_fmt : Bool
  details : FieldDetails
deriving Repr, DecidableEq

/-- The `From<&str>` constructor of `ValueField`: default formatting,
`custom_fmt = false`, empty details inheriting the formatting's
show-default flag. -/
def ValueField.fromMsg (msg : String) : ValueField :=
  { msg
    fmt := ValueFieldFormatting.mkDefault
    custom_fmt := false
    details :=
      { exmpl := none
        default := none
        show_d := ValueFieldFormatting.mkDefault.default } }

/-- `ValueField::set_fmt` (`field.rs`): installs a formatting and mirrors
its show-default flag into the details. -/
def ValueField.setFmt (vf : ValueField) (fmt : ValueFieldFormatting) :
    ValueField :=
  { vf with
    fmt := fmt
    details := { vf.details with show_d := fmt.default } }

/-- `ValueField::fmt` (`field.rs`), the caller-facing customization method:
installs the formatting and marks the field as customized. -/
def ValueField.fmtCustom (vf : ValueField) (fmt : ValueFieldFormatting) :
    ValueField :=
  { vf.setFmt fmt with custom_fmt := true }

/-- `ValueField::inherit_fmt` (`field.rs`): the parent formatting is merged
into the field only when the caller has not customized it. -/
def ValueField.inherit_fmt (vf : ValueField) (fmt : ValueFieldFormatting) :
    ValueField :=
  if vf.custom_fmt then vf else vf.setFmt fmt

/-- `ValueField::default_value` (`field.rs`): installs a literal default. -/
def ValueField.default_value (vf : ValueField) (d : String) : ValueField :=
  { vf with details := { vf.details with default := some (.Value d) } }

/-- `ValueField::example` (`field.rs`): installs an example annotation. -/
def ValueField.withExample (vf : ValueField) (e : String) : ValueField :=
  { vf with details := { vf.details with exmpl := some e } }

/-- The `Display` impl of `ValueField`:
`<chip><message><details><newline?><prefix>`. -/
def ValueField.render (vf : ValueField) : String :=
  vf.fmt.chip ++ vf.msg ++ vf.details.render ++
    (if vf.fmt.new_line then "\n" else "") ++ vf.fmt.pref

/-- Rust's `str::trim`: strips leading and trailing whitespace.  Translated
over the character list (dropping white characters from both ends) so that
proofs can evaluate it; `Char.isWhitespace` stands for Rust's
`char::is_whitespace` (they agree on the ASCII inputs of this
development). -/
def trimRust (s : String) : String :=
  ⟨((s.data.dropWhile Char.isWhitespace).reverse.dropWhile
      Char.isWhitespace).reverse⟩

/-- Rust's `str::to_lowercase`, translated char-wise over the character
list (`Char.toLower` agrees with it on the ASCII labels of this
development). -/
def toLowerRust (s : String) : String :=
  ⟨s.data.map Char.toLower⟩

/-- Rust's unsigned-integer `FromStr` (`from_str_radix` base 10): an
optional leading `+`, then at least one ASCII digit, rejecting anything
else and values above `max` (the type's maximum).  Used for the target
types of the end-to-end examples and for the `usize` index parse of the
selection matcher. -/
def parseUInt (max : Nat) (s : String) : Except String Nat :=
  let digits :=
    match s.data with
    | '+' :: rest => rest
    | cs => cs
  if digits.isEmpty then .error "cannot parse integer from empty string"
  else if digits.all Char.isDigit then
    let v := digits.foldl (fun a c => a * 10 + (c.toNat - 48)) 0
    if v ≤ max then .ok v
    else .error "number too large to fit in target type"
  else .error "invalid digit found in string"

/-- `usize::from_str` (64-bit). -/
def parseUsize (s : String) : Except String Nat :=
  parseUInt 18446744073709551615 s

/-- `u32::from_str`, the integer target type of the Written examples. -/
def parseU32 (s : String) : Except String Nat :=
  parseUInt 4294967295 s

/-- `String::from_str`: infallible. -/
def parseStringR (s : String) : Except String String := .ok s

/-- `parse_value` (`field.rs`): parses user input, mapping the error to
`MenuError::Parse` carrying the raw text. -/
def parse_value {T : Type} (parse : String → Except String T) (s : String) :
    Except MenuError T :=
  match parse s with
  | .ok v => .ok v
  | .error _ => .error (.Parse s)

/-- `raw_read_input` (`field.rs`): reads one line, echoes a newline to the
stream, and returns the input trimmed of surrounding whitespace. -/
def raw_read_input (s : MenuStream) : Except MenuError String × MenuStream :=
  match s.readOp with
  | (.error e, s) => (.error (.IOError e), s)
  | (.ok line, s) =>
    match s.writeOp "\n" with
    | (.error e, s) => (.error (.IOError e), s)
    | (.ok _, s) => (.ok (trimRust line), s)

/-- `Query` (`field.rs`): the tri-state outcome of one read-and-parse
attempt. -/
inductive Query (T : Type) where
  | Finished (t : T)
  | Err (e : MenuError)
  | Loop
deriving Repr, DecidableEq

/-- The result of a whole engine call.  `panicked` models the process abort
of `default_parse_failed` (`field.rs`), distinct from every `MenuError`. -/
inductive BuildResult (T : Type) where
  | ok (t : T)
  | err (e : MenuError)
  | panicked (msg : String)
deriving Repr, DecidableEq

/-- The panic message of `default_parse_failed` (`field.rs`): it names the
default value that failed to parse (the `{:?}` rendering of the parse error
is carried as its model string). -/
def default_parse_failed_msg (s e : String) : String :=
  "`" ++ s ++ "` has been used as default value but its type is incorrect: "
    ++ e

/-- `default_parse` (`field.rs`): parses the configured default into the
target type; on failure the process aborts through `default_parse_failed`,
modelled as the `error` branch carrying the panic message. -/
def ValueField.default_parse {T : Type} (parse : String → Except String T) :
    DefaultValue → Except String T
  | .Value s =>
    match parse s with
    | .ok v => .ok v
    | .error e => .error (default_parse_failed_msg s e)
  | .Env s =>
    match parse s with
    | .ok v => .ok v
    | .error e => .error (default_parse_failed_msg s e)

/-- The `show` closure of `ValueField::build_once` (`field.rs`): write the
rendered field, flush, then `raw_read_input`. -/
def ValueField.show_ (vf : ValueField) (s : MenuStream) :
    Except MenuError String × MenuStream :=
  match s.writeOp vf.render with
  | (.error e, s) => (.error (.IOError e), s)
  | (.ok _, s) =>
    match s.flushOp with
    | (.error e, s) => (.error (.IOError e), s)
    | (.ok _, s) => raw_read_input s

/-- `ValueField::build_once` (`field.rs`): one prompt attempt, classified
through the `From<MenuResult<MenuResult<T>>>` impl of `Query`
(I/O error ↦ `Err`, parse error ↦ `Loop`, parsed value ↦ `Finished`). -/
def ValueField.build_once {T : Type} (parse : String → Except String T)
    (vf : ValueField) (s : MenuStream) : Query T × MenuStream :=
  match vf.show_ s with
  | (.error e, s) => (.Err e, s)
  | (.ok input, s) =>
    match parse_value parse input with
    | .ok v => (.Finished v, s)
    | .error _ => (.Loop, s)

/-- `ValueField::build_until` (`field.rs`): the retry loop of the Written
engine.  `Finished` passing the predicate returns the value; `Loop` (a
parse failure) returns the parsed default when one is configured and
otherwise retries; `Err` propagates; `Finished` failing the predicate
retries.  The source loop is unbounded, so the model takes a fuel
parameter; `none` means the loop was still running when the fuel ran
out. -/
def ValueField.build_until {T : Type} (parse : String → Except String T)
    (vf : ValueField) (untl : T → Bool) :
    Nat → MenuStream → Option (BuildResult T × MenuStream)
  | 0, _ => none
  | fuel + 1, s =>
    match vf.build_once parse s with
    | (.Finished out, s) =>
      if untl out then some (.ok out, s)
      else ValueField.build_until parse vf untl fuel s
    | (.Loop, s) =>
      match vf.details.default with
      | some dv =>
        match ValueField.default_parse parse dv with
        | .ok v => some (.ok v, s)
        | .error m => some (.panicked m, s)
      | none => ValueField.build_until parse vf untl fuel s
    | (.Err e, s) => some (.err e, s)

/-- `ValueField::build_with` (`field.rs`): `build_until` with the
always-true predicate. -/
def ValueField.build_with {T : Type} (parse : String → Except String T)
    (vf : ValueField) (fuel : Nat) (s : MenuStream) :
    Option (BuildResult T × MenuStream) :=
  ValueField.build_until parse vf (fun _ => true) fuel s

/-- `SelectField` (`field.rs`): a labeled option of a selective menu.  The
source stores the payload type-erased (`Box<dyn Any>`); here it is a value
of the menu's payload type `α`.  `bind` is the optional side-effecting
callback (`Binding`), which may mutate the stream and fail. -/
structure SelectField (α : Type) where
  msg : String
  chip : String
  custom_chip : Bool
  bind : Option (MenuStream → Except MenuError Unit × MenuStream)
  inner : α

/-- `SelectField::new` (`field.rs`): default chip `" - "`, no callback. -/
def SelectField.new {α : Type} (msg : String) (inner : α) : SelectField α :=
  { msg, chip := " - ", custom_chip := false, bind := none, inner }

/-- `SelectField::call_bind` (`field.rs`): runs the callback when one is
set. -/
def SelectField.call_bind {α : Type} (f : SelectField α) (s : MenuStream) :
    Except MenuError Unit × MenuStream :=
  match f.bind with
  | none => (.ok (), s)
  | some b => b s

/-- The `Display` impl of `SelectField`: `<chip><message>`. -/
def SelectField.render {α : Type} (f : SelectField α) : String :=
  f.chip ++ f.msg

/-- `TitlePos` (`menu.rs`): the title is printed above or below the option
list. -/
inductive TitlePos where
  | Top
  | Bottom
deriving Repr, DecidableEq

/-- `SelectTitle` (`menu.rs`). -/
structure SelectTitle where
  inner : String
  fmt : ValueFieldFormatting
  custom_fmt : Bool
  pos : TitlePos
deriving Repr, DecidableEq

/-- The `Default` impl of `SelectTitle`: empty title, empty chip and
prefix. -/
def SelectTitle.mkDefault : SelectTitle :=
  { inner := ""
    fmt := { ValueFieldFormatting.mkDefault with chip := "", pref := "" }
    custom_fmt := false
    pos := .Top }

/-- The `Display` impl of `SelectTitle`: nothing when the title text is
empty, else `<chip><title><prefix>` followed by a newline when `new_line`
is set. -/
def SelectTitle.render (t : SelectTitle) : String :=
  if t.inner = "" then ""
  else
    (t.fmt.chip ++ t.inner ++ t.fmt.pref) ++
      (if t.fmt.new_line then "\n" else "")

/-- `SelectMenu` (`menu.rs`), without its owned stream (the stream is
threaded explicitly through every operation; `raw` only selects the
`raw_read_input` variant and is carried for completeness).  `pref` is the
source field `prefix`. -/
structure SelectMenu (α : Type) where
  title : SelectTitle
  fields : List (SelectField α)
  default : Option Nat
  pref : String
  raw : Bool

/-- The option lines of the `Display` impl of `SelectMenu`: each field on
its own line as `<i+1><chip><message>` with a ` (default)` marker on the
default index. -/
def SelectMenu.renderFields {α : Type} (dflt : Option Nat) :
    List (SelectField α) → Nat → String
  | [], _ => ""
  | f :: rest, i =>
    Nat.repr (i + 1) ++ f.render ++
      (if dflt = some i then " (default)" else "") ++ "\n" ++
      SelectMenu.renderFields dflt rest (i + 1)

/-- The `Display` impl of `SelectMenu`: title at its position around the
numbered option list. -/
def SelectMenu.render {α : Type} (m : SelectMenu α) : String :=
  (if m.title.pos = .Top then m.title.render else "") ++
    SelectMenu.renderFields m.default m.fields 0 ++
    (if m.title.pos = .Bottom then m.title.render else "")

/-- `err_idx` (`menu.rs`): the out-of-range default-index error. -/
def err_idx (dflt len : Nat) : MenuError :=
  .Other ("incorrect default value index: index is " ++ Nat.repr dflt ++
    " but selective menu length is " ++ Nat.repr len)

/-- `err_ty` (`menu.rs`): the label-does-not-parse error (the `{:?}`
rendering of the parse error is carried as its model string). -/
def err_ty (e : String) : MenuError :=
  .Other ("incorrect default value type: " ++ e)

/-- `default_parse` (`menu.rs`): resolves the default option by index,
runs its callback, and parses its label into the output type. -/
def SelectMenu.default_parse {T α : Type} (parse : String → Except String T)
    (dflt : Nat) (fields : List (SelectField α)) (s : MenuStream) :
    Except MenuError T × MenuStream :=
  match fields.get? dflt with
  | none => (.error (err_idx dflt fields.length), s)
  | some f =>
    match f.call_bind s with
    | (.error e, s) => (.error e, s)
    | (.ok _, s) =>
      match parse f.msg with
      | .ok v => (.ok v, s)
      | .error e => (.error (err_ty e), s)

/-- `select` (`menu.rs`): one selection attempt.  Writes the prompt prefix,
flushes, reads a line, then matches the trimmed input: first a
case-insensitive exact label match (on success the *input text* is parsed
into the output type), else a 1-based `usize` index resolving to an option
(whose *label* is parsed), else the configured default, else
`MenuError::Select` carrying the raw input.  A zero index or an
out-of-range index is `MenuError::Select`, not a default fallback. -/
def select {T α : Type} (parse : String → Except String T) (pref : String)
    (dflt : Option Nat) (fields : List (SelectField α)) (s : MenuStream) :
    Except MenuError T × MenuStream :=
  match s.writeOp pref with
  | (.error e, s) => (.error (.IOError e), s)
  | (.ok _, s) =>
    match s.flushOp with
    | (.error e, s) => (.error (.IOError e), s)
    | (.ok _, s) =>
      match raw_read_input s with
      | (.error e, s) => (.error e, s)
      | (.ok out, s) =>
        match fields.find? (fun f => toLowerRust f.msg == toLowerRust out) with
        | some f =>
          match parse out with
          | .ok o =>
            (match f.call_bind s with
             | (.error e, s) => (.error e, s)
             | (.ok _, s) => (.ok o, s))
          | .error _ =>
            (match dflt with
             | some d => SelectMenu.default_parse parse d fields s
             | none => (.error (.Select out), s))
        | none =>
          match parseUsize out with
          | .ok idx =>
            if 1 ≤ idx then
              match fields.get? (idx - 1) with
              | some f =>
                (match f.call_bind s with
                 | (.error e, s) => (.error e, s)
                 | (.ok _, s) =>
                   match parse f.msg with
                   | .ok v => (.ok v, s)
                   | .error e => (.error (err_ty e), s))
              | none => (.error (.Select out), s)
            else (.error (.Select out), s)
          | .error _ =>
            match dflt with
            | some d => SelectMenu.default_parse parse d fields s
            | none => (.error (.Select out), s)

/-- The retry loop of `SelectMenu::next_output` (`menu.rs`): a successful
attempt returns its value; *any* error from `select` (including an I/O
error) is swallowed — with a default configured the loop breaks with
`default_parse` (whose own error propagates through the `?`), without one
it retries.  Fuel as in `ValueField.build_until`. -/
def SelectMenu.sel_loop {T α : Type} (parse : String → Except String T)
    (pref : String) (dflt : Option Nat) (fields : List (SelectField α)) :
    Nat → MenuStream → Option (Except MenuError T × MenuStream)
  | 0, _ => none
  | fuel + 1, s =>
    match select parse pref dflt fields s with
    | (.ok out, s) => some (.ok out, s)
    | (.error _, s) =>
      match dflt with
      | some d => some (SelectMenu.default_parse parse d fields s)
      | none => SelectMenu.sel_loop parse pref dflt fields fuel s

/-- `SelectMenu::next_output` / `next_output_with` (`menu.rs`): renders the
whole menu once (an I/O error here propagates), then runs the selection
retry loop. -/
def SelectMenu.next_output {T α : Type} (parse : String → Except String T)
    (m : SelectMenu α) (fuel : Nat) (s : MenuStream) :
    Option (Except MenuError T × MenuStream) :=
  match s.writeOp m.render with
  | (.error e, s) => some (.error (.IOError e), s)
  | (.ok _, s) => SelectMenu.sel_loop parse m.pref m.default m.fields fuel s

/-- `Field` (`field.rs`): a value field or a selectable sub-menu. -/
inductive Field (α : Type) where
  | Value (vf : ValueField)
  | Select (sm : SelectMenu α)

/-- `Field::build` (`field.rs`) — called `menu_build` at its `menu.rs` call
site: dispatches to `ValueField::build_with` or
`SelectMenu::next_output_with`.  The selectable branch never panics, so its
result is injected into `BuildResult`. -/
def Field.build {T α : Type} (parse : String → Except String T)
    (f : Field α) (fuel : Nat) (s : MenuStream) :
    Option (BuildResult T × MenuStream) :=
  match f with
  | .Value vf => ValueField.build_with parse vf fuel s
  | .Select sm =>
    (SelectMenu.next_output parse sm fuel s).map fun p =>
      (match p.1 with
       | .ok v => (.ok v, p.2)
       | .error e => (.err e, p.2))

/-- `ValueMenu` (`menu.rs`), without its owned stream: the remaining fields
(the `IntoIter` state), the shared formatting, the title and the
printed-title flag. -/
structure ValueMenu (α : Type) where
  title : String
  fmt : ValueFieldFormatting
  fields : List (Field α)
  first_popped : Bool
  raw : Bool

/-- `ValueMenu::next_field` (`menu.rs`): pops the next field of the
construction-order iterator, or `MenuError::NoMoreField` once exhausted. -/
def ValueMenu.next_field {α : Type} (m : ValueMenu α) :
    Except MenuError (Field α × ValueMenu α) :=
  match m.fields with
  | [] => .error .NoMoreField
  | f :: rest => .ok (f, { m with fields := rest })

/-- `print_title` (`menu.rs`): writes the menu title followed by a newline
once, before the first field; the flag is set only after a successful
write. -/
def print_title (s : MenuStream) (title : String) (popped : Bool) :
    (Except MenuError Unit × MenuStream) × Bool :=
  if !popped && title ≠ "" then
    match s.writeOp (title ++ "\n") with
    | (.error e, s) => ((.error (.IOError e), s), popped)
    | (.ok _, s) => ((.ok (), s), true)
  else ((.ok (), s), popped)

/-- `ValueMenu::next_output` (`menu.rs`): prints the title once, pops the
next field and builds it; `NoMoreField` propagates without touching the
input side of the stream. -/
def ValueMenu.next_output {T α : Type} (parse : String → Except String T)
    (m : ValueMenu α) (fuel : Nat) (s : MenuStream) :
    Option (BuildResult T × MenuStream) × ValueMenu α :=
  match print_title s m.title m.first_popped with
  | ((.error e, s), popped) =>
    (some (.err e, s), { m with first_popped := popped })
  | ((.ok _, s), popped) =>
    let m := { m with first_popped := popped }
    match m.next_field with
    | .error e => (some (.err e, s), m)
    | .ok (f, m) => (Field.build parse f fuel s, m)

end Ezmenu
namespace Ezmenu

/-- Concrete fixture: the Written field of the spec's end-to-end example,
message `Year` with literal default `2022`. -/
def yearField : ValueField :=
  (ValueField.fromMsg "Year").default_value "2022"

/-- Concrete fixture: a Written string field with a default, used to
exercise the predicate-rejection path. -/
def nameField : ValueField :=
  (ValueField.fromMsg "Name").default_value "anon"

/-- Concrete fixture: the Selected menu of the spec's end-to-end example,
options `("one", 1)`, `("two", 2)`, `("three", 3)` and no default. -/
def optsMenu : SelectMenu Nat :=
  { title := SelectTitle.mkDefault
    fields :=
      [SelectField.new "one" 1, SelectField.new "two" 2,
       SelectField.new "three" 3]
    default := none
    pref := ">> "
    raw := false }

/-- Concrete fixture: the same menu with default index 0. -/
def optsMenuD : SelectMenu Nat := { optsMenu with default := some 0 }

/-- Concrete fixture: a one-field value-menu container. -/
def menuFix : ValueMenu Nat :=
  { title := "main"
    fmt := ValueFieldFormatting.mkDefault
    fields := [Field.Value yearField]
    first_popped := false
    raw := false }

/-- Concrete fixture: the same container with its field already
consumed. -/
def emptyMenuFix : ValueMenu Nat := { menuFix with fields := [] }

/-- Helper: one clean prompt attempt of the Written engine (no scheduled
I/O failure) renders the field, consumes one line and classifies its
parse. -/
theorem build_once_clean {T : Type} (parse : String → Except String T)
    (vf : ValueField) (line : String) (rest w : List String) :
    ValueField.build_once parse vf ⟨line :: rest, w, []⟩ =
      ((match parse (trimRust line) with
        | .ok v => Query.Finished v
        | .error _ => Query.Loop),
       ⟨rest, w ++ [vf.render, "\n"], []⟩) := by
  simp only [ValueField.build_once, ValueField.show_, MenuStream.writeOp,
    MenuStream.popErr, MenuStream.flushOp, MenuStream.readOp,
    raw_read_input, parse_value]
  cases parse (trimRust line) <;> simp

/-- Helper: one end-of-input prompt attempt of the Written engine reads
the zero-length line, so it classifies the parse of the empty string. -/
theorem build_once_eof {T : Type} (parse : String → Except String T)
    (vf : ValueField) (w : List String) :
    ValueField.build_once parse vf ⟨[], w, []⟩ =
      ((match parse "" with
        | .ok v => Query.Finished v
        | .error _ => Query.Loop),
       ⟨[], w ++ [vf.render, "\n"], []⟩) := by
  simp only [ValueField.build_once, ValueField.show_, MenuStream.writeOp,
    MenuStream.popErr, MenuStream.flushOp, MenuStream.readOp,
    raw_read_input, parse_value]
  rw [show trimRust "" = "" from rfl]
  cases parse "" <;> simp

/-- Helper: the resolution of a configured default whose text does not
parse aborts with the panic message naming that text. -/
theorem default_parse_panics {T : Type} (parse : String → Except String T)
    (dv : DefaultValue) (e : String) (hdv : parse dv.text = .error e) :
    ValueField.default_parse parse dv =
      .error (default_parse_failed_msg dv.text e) := by
  cases dv <;> simp_all [ValueField.default_parse, DefaultValue.text]

end Ezmenu
namespace Ezmenu

/-- C1 (amended): for a Selected menu with no default, an input line that
matches no option label case-insensitively and resolves to no valid
1-based index makes the single `select` attempt return the
invalid-selection error carrying the (trimmed) input after exactly one
read — but `next_output` swallows that error and re-prompts: one loop
iteration consumes the attempt and continues with the rest of the
input. -/
theorem C1_selected_invalid_single_attempt {T α : Type}
    (parse : String → Except String T) (pref : String)
    (fields : List (SelectField α)) (line : String) (rest : List String)
    (w : List String) (fuel : Nat)
    (hfind : fields.find?
      (fun f => toLowerRust f.msg == toLowerRust (trimRust line)) = none)
    (hidx : ∀ idx, parseUsize (trimRust line) = .ok idx →
      idx = 0 ∨ fields.get? (idx - 1) = none) :
    select parse pref none fields ⟨line :: rest, w, []⟩ =
      (.error (.Select (trimRust line)), ⟨rest, w ++ [pref, "\n"], []⟩) ∧
    SelectMenu.sel_loop parse pref none fields (fuel + 1)
        ⟨line :: rest, w, []⟩ =
      SelectMenu.sel_loop parse pref none fields fuel
        ⟨rest, w ++ [pref, "\n"], []⟩ := by
  have hsel : select parse pref none fields ⟨line :: rest, w, []⟩ =
      (.error (.Select (trimRust line)), ⟨rest, w ++ [pref, "\n"], []⟩) := by
    simp only [select, MenuStream.writeOp, MenuStream.popErr,
      MenuStream.flushOp, MenuStream.readOp, raw_read_input, hfind]
    cases hp : parseUsize (trimRust line) with
    | error e => simp
    | ok idx =>
      rcases hidx idx hp with h0 | hnone
      · subst h0; simp
      · rw [List.get?_eq_getElem?] at hnone
        simp [hnone]
  refine ⟨hsel, ?_⟩
  simp only [SelectMenu.sel_loop, hsel]

/-- C1 witness: on the example menu with no default, input `nine` yields
`MenuError::Select "nine"` from the single attempt, and the retry loop
steps on. -/
theorem C1_selected_invalid_single_attempt_witness :
    select parseStringR ">> " none optsMenu.fields ⟨["nine"], [], []⟩ =
      (.error (.Select "nine"), ⟨[], [">> ", "\n"], []⟩) ∧
    SelectMenu.sel_loop parseStringR ">> " none optsMenu.fields 1
        ⟨["nine"], [], []⟩ =
      SelectMenu.sel_loop parseStringR ">> " none optsMenu.fields 0
        ⟨[], [">> ", "\n"], []⟩ :=
  C1_selected_invalid_single_attempt parseStringR ">> " optsMenu.fields
    "nine" [] [] 0 (by rfl)
    (by intro idx h
        rw [show parseUsize (trimRust "nine") =
          Except.error "invalid digit found in string" from rfl] at h
        cases h)

/-- C1 counterexample: the claim as stated is false — with no default the
call `next_output` does not return `InvalidSelection` after the single
invalid attempt `nine`; it re-prompts and returns the value of the second
line `two`, consuming both lines. -/
theorem C1_counterexample :
    ((SelectMenu.next_output parseStringR optsMenu 5
        ⟨["nine", "two"], [], []⟩).map (fun p => (p.1, p.2.lines))) =
      some (.ok "two", []) ∧
    ((SelectMenu.next_output parseStringR optsMenu 5
        ⟨["nine", "two"], [], []⟩).map (fun p => p.1)) ≠
      some (.error (.Select "nine")) := by
  constructor
  · rfl
  · intro h
    rw [show ((SelectMenu.next_output parseStringR optsMenu 5
        ⟨["nine", "two"], [], []⟩).map (fun p => p.1)) =
      some (Except.ok "two") from rfl] at h
    simp at h

/-- C2 (amended): in the Written engine, after a parse failure the engine
returns the resolved default if and only if a default is configured —
regardless of whether the line was empty; after a predicate rejection it
always re-prompts, even when a default is configured. -/
theorem C2_written_fallback_on_parse_failure {T : Type}
    (parse : String → Except String T) (vf : ValueField) (untl : T → Bool)
    (fuel : Nat) (line : String) (rest w : List String) :
    (∀ (dv : DefaultValue) (v : T) (e : String),
      vf.details.default = some dv → parse (trimRust line) = .error e →
      ValueField.default_parse parse dv = .ok v →
      ValueField.build_until parse vf untl (fuel + 1) ⟨line :: rest, w, []⟩ =
        some (.ok v, ⟨rest, w ++ [vf.render, "\n"], []⟩)) ∧
    (∀ (e : String),
      vf.details.default = none → parse (trimRust line) = .error e →
      ValueField.build_until parse vf untl (fuel + 1) ⟨line :: rest, w, []⟩ =
        ValueField.build_until parse vf untl fuel
          ⟨rest, w ++ [vf.render, "\n"], []⟩) ∧
    (∀ (out : T),
      parse (trimRust line) = .ok out → untl out = false →
      ValueField.build_until parse vf untl (fuel + 1) ⟨line :: rest, w, []⟩ =
        ValueField.build_until parse vf untl fuel
          ⟨rest, w ++ [vf.render, "\n"], []⟩) := by
  refine ⟨?_, ?_, ?_⟩
  · intro dv v e hdef hline hdp
    simp only [ValueField.build_until, build_once_clean, hline, hdef, hdp]
  · intro e hdef hline
    simp only [ValueField.build_until, build_once_clean, hline, hdef]
  · intro out hline huntl
    simp only [ValueField.build_until, build_once_clean, hline, huntl]
    simp

/-- C2 witness: a non-empty unparsable line with a default falls back at
once; the same line with no default steps the loop; an accepted value the
predicate rejects steps the loop even with a default configured. -/
theorem C2_written_fallback_on_parse_failure_witness :
    ValueField.build_until parseU32 yearField (fun _ => true) 1
        ⟨["abc"], [], []⟩ =
      some (.ok 2022, ⟨[], [yearField.render, "\n"], []⟩) ∧
    ValueField.build_until parseU32 (ValueField.fromMsg "n") (fun _ => true)
        1 ⟨["abc"], [], []⟩ =
      ValueField.build_until parseU32 (ValueField.fromMsg "n")
        (fun _ => true) 0
        ⟨[], [(ValueField.fromMsg "n").render, "\n"], []⟩ ∧
    ValueField.build_until parseStringR nameField (fun v => v != "") 1
        ⟨[""], [], []⟩ =
      ValueField.build_until parseStringR nameField (fun v => v != "") 0
        ⟨[], [nameField.render, "\n"], []⟩ :=
  ⟨(C2_written_fallback_on_parse_failure parseU32 yearField (fun _ => true)
      0 "abc" [] []).1 (.Value "2022") 2022
      "invalid digit found in string" (by rfl) (by rfl) (by rfl),
   (C2_written_fallback_on_parse_failure parseU32 (ValueField.fromMsg "n")
      (fun _ => true) 0 "abc" [] []).2.1
      "invalid digit found in string" (by rfl) (by rfl),
   (C2_written_fallback_on_parse_failure parseStringR nameField
      (fun v => v != "") 0 "" [] []).2.2 "" (by rfl) (by rfl)⟩

/-- C2 counterexample: the claim as stated is false — with default `2022`
the non-empty invalid line `abc` does not re-prompt but returns the
default at once (the second pending line is left unread), and an empty
line whose parsed value the predicate rejects does not fall back to the
default but re-prompts (the call returns the second line's value
`ok`). -/
theorem C2_counterexample :
    (ValueField.build_until parseU32 yearField (fun _ => true) 3
        ⟨["abc", "7"], [], []⟩).map (fun p => (p.1, p.2.lines)) =
      some (.ok 2022, ["7"]) ∧
    (ValueField.build_until parseStringR nameField (fun v => v != "") 3
        ⟨["", "ok"], [], []⟩).map (fun p => (p.1, p.2.lines)) =
      some (.ok "ok", []) := by
  refine ⟨?_, ?_⟩ <;> rfl

end Ezmenu
namespace Ezmenu

/-- C3 (amended): label selection parses the input text and index
selection parses the option's label, so when the input equals the
option's label exactly (and the index line matches no label) the two
paths return the identical parsed value; the stored option payloads are
never consulted. -/
theorem C3_label_and_index_agree {T α : Type}
    (parse : String → Except String T) (pref : String) (dflt : Option Nat)
    (fields : List (SelectField α)) (f : SelectField α) (i : Nat) (v : T)
    (rest w : List String)
    (htrim : trimRust f.msg = f.msg)
    (htrim2 : trimRust (Nat.repr (i + 1)) = Nat.repr (i + 1))
    (hfind : fields.find?
      (fun g => toLowerRust g.msg == toLowerRust f.msg) = some f)
    (hbind : f.bind = none)
    (hparse : parse f.msg = .ok v)
    (hget : fields.get? i = some f)
    (hfind2 : fields.find?
      (fun g => toLowerRust g.msg == toLowerRust (Nat.repr (i + 1))) = none)
    (hidx : parseUsize (Nat.repr (i + 1)) = .ok (i + 1)) :
    select parse pref dflt fields ⟨f.msg :: rest, w, []⟩ =
      (.ok v, ⟨rest, w ++ [pref, "\n"], []⟩) ∧
    select parse pref dflt fields ⟨Nat.repr (i + 1) :: rest, w, []⟩ =
      (.ok v, ⟨rest, w ++ [pref, "\n"], []⟩) := by
  constructor
  · simp only [select, MenuStream.writeOp, MenuStream.popErr,
      MenuStream.flushOp, MenuStream.readOp, raw_read_input, htrim, hfind,
      hparse, SelectField.call_bind, hbind]
    simp
  · simp only [select, MenuStream.writeOp, MenuStream.popErr,
      MenuStream.flushOp, MenuStream.readOp, raw_read_input, htrim2,
      hfind2, hidx]
    rw [List.get?_eq_getElem?] at hget
    simp [hget, SelectField.call_bind, hbind, hparse]

/-- C3 witness: on the example menu with a string-parsing output type,
input `two` and input `2` both return the value `two`. -/
theorem C3_label_and_index_agree_witness :
    select parseStringR ">> " none optsMenu.fields ⟨["two"], [], []⟩ =
      (.ok "two", ⟨[], [">> ", "\n"], []⟩) ∧
    select parseStringR ">> " none optsMenu.fields ⟨["2"], [], []⟩ =
      (.ok "two", ⟨[], [">> ", "\n"], []⟩) :=
  C3_label_and_index_agree parseStringR ">> " none optsMenu.fields
    (SelectField.new "two" 2) 1 "two" [] [] (by rfl) (by rfl) (by rfl)
    (by rfl) (by rfl) (by rfl) (by rfl) (by rfl)

/-- C3 counterexample: the claim's concrete example is false — on options
`("one",1), ("two",2), ("three",3)` with an integer output type, input
`two` yields `MenuError::Select "two"` (the stored value 2 is not
returned) and input `2` yields the incorrect-default-type error from
parsing the label `two` as an integer. -/
theorem C3_counterexample :
    (select parseUsize ">> " none optsMenu.fields ⟨["two"], [], []⟩).1 =
      .error (.Select "two") ∧
    (select parseUsize ">> " none optsMenu.fields ⟨["2"], [], []⟩).1 =
      .error (err_ty "invalid digit found in string") ∧
    (select parseUsize ">> " none optsMenu.fields ⟨["two"], [], []⟩).1 ≠
      .ok 2 ∧
    (select parseUsize ">> " none optsMenu.fields ⟨["2"], [], []⟩).1 ≠
      .ok 2 := by
  refine ⟨by rfl, by rfl, ?_, ?_⟩
  · intro h
    rw [show (select parseUsize ">> " none optsMenu.fields
        ⟨["two"], [], []⟩).1 = Except.error (.Select "two") from rfl] at h
    cases h
  · intro h
    rw [show (select parseUsize ">> " none optsMenu.fields
        ⟨["2"], [], []⟩).1 =
      Except.error (err_ty "invalid digit found in string") from rfl] at h
    cases h

/-- C4: at end of input (zero-length reads) a Written field with no
default, and a Selected retry loop with no default, never return: every
fuel bound is exhausted with the loop still running, instead of the
distinct no-more-input error the spec requires (no such error exists in
the code). -/
theorem C4_eof_required_field_loops_forever {T α : Type}
    (parse : String → Except String T) (vf : ValueField) (untl : T → Bool)
    (pref : String) (fields : List (SelectField α)) (perr : String)
    (hdef : vf.details.default = none)
    (hparse : parse "" = .error perr)
    (hlabels : ∀ f ∈ fields, toLowerRust f.msg ≠ "") :
    (∀ (fuel : Nat) (w : List String),
      ValueField.build_until parse vf untl fuel ⟨[], w, []⟩ = none) ∧
    (∀ (fuel : Nat) (w : List String),
      SelectMenu.sel_loop parse pref none fields fuel ⟨[], w, []⟩ =
        none) := by
  have hfind : fields.find?
      (fun f => toLowerRust f.msg == toLowerRust (trimRust "")) = none := by
    rw [List.find?_eq_none]
    intro f hf
    simpa using hlabels f hf
  have hsel : ∀ w : List String,
      select parse pref none fields ⟨[], w, []⟩ =
        (.error (.Select ""), ⟨[], w ++ [pref, "\n"], []⟩) := by
    intro w
    simp only [select, MenuStream.writeOp, MenuStream.popErr,
      MenuStream.flushOp, MenuStream.readOp, raw_read_input, hfind]
    rw [show trimRust "" = "" from rfl]
    rw [show parseUsize "" =
      Except.error "cannot parse integer from empty string" from rfl]
    simp
  constructor
  · intro fuel
    induction fuel with
    | zero => intro w; rfl
    | succ n ih =>
      intro w
      simp only [ValueField.build_until, build_once_eof, hparse, hdef]
      exact ih _
  · intro fuel
    induction fuel with
    | zero => intro w; rfl
    | succ n ih =>
      intro w
      simp only [SelectMenu.sel_loop, hsel]
      exact ih _

/-- C4 witness: a required integer field and the example menu, both with
no default, are still looping after 7 attempts at end of input. -/
theorem C4_eof_required_field_loops_forever_witness :
    ValueField.build_until parseU32 (ValueField.fromMsg "n")
        (fun _ => true) 7 ⟨[], [], []⟩ = none ∧
    SelectMenu.sel_loop parseU32 ">> " none optsMenu.fields 7
        ⟨[], [], []⟩ = none :=
  ⟨(C4_eof_required_field_loops_forever parseU32 (ValueField.fromMsg "n")
      (fun _ => true) ">> " optsMenu.fields
      "cannot parse integer from empty string" (by rfl) (by rfl)
      (by decide)).1 7 [],
   (C4_eof_required_field_loops_forever parseU32 (ValueField.fromMsg "n")
      (fun _ => true) ">> " optsMenu.fields
      "cannot parse integer from empty string" (by rfl) (by rfl)
      (by decide)).2 7 []⟩

end Ezmenu
namespace Ezmenu

/-- C5 (amended): in the Written engine an erroring attempt (in particular
an I/O error) propagates immediately with no retry and no default
fallback; the Selected engine propagates an I/O error only while printing
the option list — an error inside a selection attempt is swallowed by the
retry loop: with a default configured the call falls back to the default
option, with none it retries. -/
theorem C5_io_error_asymmetry {T α : Type}
    (parse : String → Except String T) (vf : ValueField) (untl : T → Bool)
    (pref : String) (fields : List (SelectField α)) (fuel : Nat) :
    (∀ (e : MenuError) (s s' : MenuStream),
      vf.build_once parse s = (.Err e, s') →
      ValueField.build_until parse vf untl (fuel + 1) s =
        some (.err e, s')) ∧
    (∀ (io : IOErr) (m : SelectMenu α) (s s' : MenuStream),
      s.writeOp m.render = (.error io, s') →
      SelectMenu.next_output parse m fuel s =
        some (.error (.IOError io), s')) ∧
    (∀ (e : MenuError) (d : Nat) (v : T) (s s' s'' : MenuStream),
      select parse pref (some d) fields s = (.error e, s') →
      SelectMenu.default_parse parse d fields s' = (.ok v, s'') →
      SelectMenu.sel_loop parse pref (some d) fields (fuel + 1) s =
        some (.ok v, s'')) ∧
    (∀ (e : MenuError) (s s' : MenuStream),
      select parse pref none fields s = (.error e, s') →
      SelectMenu.sel_loop parse pref none fields (fuel + 1) s =
        SelectMenu.sel_loop parse pref none fields fuel s') := by
  refine ⟨?_, ?_, ?_, ?_⟩
  · intro e s s' h
    simp only [ValueField.build_until, h]
  · intro io m s s' h
    simp only [SelectMenu.next_output, h]
  · intro e d v s s' s'' h hdp
    simp only [SelectMenu.sel_loop, h, hdp]
  · intro e s s' h
    simp only [SelectMenu.sel_loop, h]

/-- C5 witness: a scheduled I/O failure on the Written attempt propagates
as `IOError` with the default `2022` configured; a failure while printing
the option list propagates; a failure inside the selection attempt with
default index 0 is replaced by the default option's value `one`; a
failure with no default steps the retry loop. -/
theorem C5_io_error_asymmetry_witness :
    ValueField.build_until parseU32 yearField (fun _ => true) 1
        ⟨["5"], [], [some "boom"]⟩ =
      some (.err (.IOError "boom"), ⟨["5"], [], []⟩) ∧
    SelectMenu.next_output parseStringR optsMenuD 1
        ⟨["two"], [], [some "boom"]⟩ =
      some (.error (.IOError "boom"), ⟨["two"], [], []⟩) ∧
    SelectMenu.sel_loop parseStringR ">> " (some 0) optsMenuD.fields 1
        ⟨["two"], [], [some "boom"]⟩ =
      some (.ok "one", ⟨["two"], [], []⟩) ∧
    SelectMenu.sel_loop parseStringR ">> " none optsMenu.fields 1
        ⟨["two"], [], [some "boom"]⟩ =
      SelectMenu.sel_loop parseStringR ">> " none optsMenu.fields 0
        ⟨["two"], [], []⟩ :=
  ⟨(C5_io_error_asymmetry parseU32 yearField (fun _ => true) ">> "
      (optsMenu.fields) 0).1 (.IOError "boom") ⟨["5"], [], [some "boom"]⟩
      ⟨["5"], [], []⟩ (by rfl),
   (C5_io_error_asymmetry parseStringR yearField (fun _ => true) ">> "
      optsMenuD.fields 1).2.1 "boom" optsMenuD
      ⟨["two"], [], [some "boom"]⟩ ⟨["two"], [], []⟩ (by rfl),
   (C5_io_error_asymmetry parseStringR yearField (fun _ => true) ">> "
      optsMenuD.fields 0).2.2.1 (.IOError "boom") 0 "one"
      ⟨["two"], [], [some "boom"]⟩ ⟨["two"], [], []⟩ ⟨["two"], [], []⟩
      (by rfl) (by rfl),
   (C5_io_error_asymmetry parseStringR yearField (fun _ => true) ">> "
      optsMenu.fields 0).2.2.2 (.IOError "boom")
      ⟨["two"], [], [some "boom"]⟩ ⟨["two"], [], []⟩ (by rfl)⟩

/-- C5 counterexample: the claim as stated is false — with default index 0
an I/O error raised by the stream during the selection attempt is not
propagated: the call returns the default option's value `one`. -/
theorem C5_counterexample :
    (SelectMenu.next_output parseStringR optsMenuD 5
        ⟨["two"], [], [none, some "boom"]⟩).map (fun p => p.1) =
      some (.ok "one") ∧
    (SelectMenu.next_output parseStringR optsMenuD 5
        ⟨["two"], [], [none, some "boom"]⟩).map (fun p => p.1) ≠
      some (.error (.IOError "boom")) := by
  constructor
  · rfl
  · intro h
    rw [show (SelectMenu.next_output parseStringR optsMenuD 5
        ⟨["two"], [], [none, some "boom"]⟩).map (fun p => p.1) =
      some (Except.ok "one") from rfl] at h
    simp at h

/-- C6: the Written end-to-end example — field `Year` with literal default
`2022` and an integer target: the empty line returns 2022, the line
`2018` returns 2018, and the unparsable line `abc` returns 2022 by
falling back to the default within a single attempt rather than retrying
forever. -/
theorem C6_year_end_to_end :
    (ValueField.build_until parseU32 yearField (fun _ => true) 1
        ⟨[""], [], []⟩).map (fun p => (p.1, p.2.lines)) =
      some (.ok 2022, []) ∧
    (ValueField.build_until parseU32 yearField (fun _ => true) 1
        ⟨["2018"], [], []⟩).map (fun p => (p.1, p.2.lines)) =
      some (.ok 2018, []) ∧
    (ValueField.build_until parseU32 yearField (fun _ => true) 1
        ⟨["abc"], [], []⟩).map (fun p => (p.1, p.2.lines)) =
      some (.ok 2022, []) := by
  refine ⟨?_, ?_, ?_⟩ <;> rfl

/-- C7: for a Selected menu with a valid default index whose option label
parses into the output type and carries no callback, an input line that
matches no label case-insensitively and resolves to no valid 1-based
index makes `next_output` return the default option's value after a
single attempt: exactly one line is consumed and the transcript shows one
menu rendering and one prompt prefix, with no re-prompt. -/
theorem C7_selected_default_fallback {T α : Type}
    (parse : String → Except String T) (m : SelectMenu α) (d : Nat)
    (fd : SelectField α) (v : T) (line : String) (rest w : List String)
    (fuel : Nat)
    (hd : m.default = some d)
    (hget : m.fields.get? d = some fd)
    (hbind : fd.bind = none)
    (hpd : parse fd.msg = .ok v)
    (hfind : m.fields.find?
      (fun f => toLowerRust f.msg == toLowerRust (trimRust line)) = none)
    (hidx : ∀ idx, parseUsize (trimRust line) = .ok idx →
      idx = 0 ∨ m.fields.get? (idx - 1) = none) :
    SelectMenu.next_output parse m (fuel + 1) ⟨line :: rest, w, []⟩ =
      some (.ok v, ⟨rest, w ++ [m.render, m.pref, "\n"], []⟩) := by
  have hdp : SelectMenu.default_parse parse d m.fields
      ⟨rest, w ++ [m.render, m.pref, "\n"], []⟩ =
      (.ok v, ⟨rest, w ++ [m.render, m.pref, "\n"], []⟩) := by
    rw [List.get?_eq_getElem?] at hget
    simp only [SelectMenu.default_parse, List.get?_eq_getElem?, hget,
      SelectField.call_bind, hbind, hpd]
  have hselstep : select parse m.pref m.default m.fields
      ⟨line :: rest, w ++ [m.render], []⟩ =
      (match parseUsize (trimRust line) with
       | .ok _ => (.error (.Select (trimRust line)),
           ⟨rest, w ++ [m.render, m.pref, "\n"], []⟩)
       | .error _ => (.ok v, ⟨rest, w ++ [m.render, m.pref, "\n"], []⟩)) := by
    simp only [select, MenuStream.writeOp, MenuStream.popErr,
      MenuStream.flushOp, MenuStream.readOp, raw_read_input, hfind]
    cases hp : parseUsize (trimRust line) with
    | error e =>
      simp only [hd, List.append_assoc, List.cons_append, List.nil_append]
      exact hdp
    | ok idx =>
      rcases hidx idx hp with h0 | hnone
      · subst h0; simp
      · rw [List.get?_eq_getElem?] at hnone
        simp [hnone]
  simp only [SelectMenu.next_output, MenuStream.writeOp, MenuStream.popErr,
    SelectMenu.sel_loop, hselstep]
  cases hp : parseUsize (trimRust line) with
  | error e => simp
  | ok idx => simp only [hd, hdp]

/-- C7 witness: on the example menu with default index 0 and a
string-parsing output type, the unrecognized line `nine` returns the
default option's value `one` with one line consumed and a single
rendering and prompt. -/
theorem C7_selected_default_fallback_witness :
    SelectMenu.next_output parseStringR optsMenuD 1 ⟨["nine"], [], []⟩ =
      some (.ok "one",
        ⟨[], [optsMenuD.render, optsMenuD.pref, "\n"], []⟩) :=
  C7_selected_default_fallback parseStringR optsMenuD 0
    (SelectField.new "one" 1) "one" "nine" [] [] 0 (by rfl) (by rfl)
    (by rfl) (by rfl) (by rfl)
    (by intro idx h
        rw [show parseUsize (trimRust "nine") =
          Except.error "invalid digit found in string" from rfl] at h
        cases h)

end Ezmenu
namespace Ezmenu

/-- C8: when a configured literal or environment-sourced default string
fails to parse into the target type at the moment the default is used,
the Written engine aborts through `default_parse_failed` with the panic
message naming the default value; the outcome is the distinct `panicked`
abort, never an ordinary `MenuError::Parse` result. -/
theorem C8_misconfigured_default_panics {T : Type}
    (parse : String → Except String T) (vf : ValueField) (untl : T → Bool)
    (dv : DefaultValue) (perr e : String) (line : String)
    (rest w : List String) (fuel : Nat)
    (hdef : vf.details.default = some dv)
    (hline : parse (trimRust line) = .error perr)
    (hdv : parse dv.text = .error e) :
    ValueField.build_until parse vf untl (fuel + 1) ⟨line :: rest, w, []⟩ =
      some (.panicked (default_parse_failed_msg dv.text e),
        ⟨rest, w ++ [vf.render, "\n"], []⟩) ∧
    ∀ (raw : String) (s' : MenuStream),
      ValueField.build_until parse vf untl (fuel + 1)
          ⟨line :: rest, w, []⟩ ≠
        some (.err (.Parse raw), s') := by
  have h : ValueField.build_until parse vf untl (fuel + 1)
      ⟨line :: rest, w, []⟩ =
      some (.panicked (default_parse_failed_msg dv.text e),
        ⟨rest, w ++ [vf.render, "\n"], []⟩) := by
    simp only [ValueField.build_until, build_once_clean, hline, hdef,
      default_parse_panics parse dv e hdv]
  refine ⟨h, ?_⟩
  intro raw s' hcontra
  rw [h] at hcontra
  simp at hcontra

/-- C8 witness: a field with the unparsable literal default `abc` and an
integer target panics with the message naming `abc` when the invalid
line `xyz` forces the default to be used. -/
theorem C8_misconfigured_default_panics_witness :
    ValueField.build_until parseU32
        ((ValueField.fromMsg "n").default_value "abc") (fun _ => true) 1
        ⟨["xyz"], [], []⟩ =
      some (.panicked (default_parse_failed_msg "abc"
          "invalid digit found in string"),
        ⟨[], [((ValueField.fromMsg "n").default_value "abc").render, "\n"],
          []⟩) ∧
    ∀ (raw : String) (s' : MenuStream),
      ValueField.build_until parseU32
          ((ValueField.fromMsg "n").default_value "abc") (fun _ => true) 1
          ⟨["xyz"], [], []⟩ ≠
        some (.err (.Parse raw), s') :=
  C8_misconfigured_default_panics parseU32
    ((ValueField.fromMsg "n").default_value "abc") (fun _ => true)
    (.Value "abc") "invalid digit found in string"
    "invalid digit found in string" "xyz" [] [] 0 (by rfl) (by rfl)
    (by rfl)

/-- C9: the formatting-merge of `ValueField` is idempotent — inheriting
the same parent formatting twice equals inheriting it once — and a field
whose formatting was customized by the caller through `ValueField::fmt`
is left unchanged by merging any parent formatting into it. -/
theorem C9_format_merge_idempotent :
    (∀ (vf : ValueField) (fmt : ValueFieldFormatting),
      (vf.inherit_fmt fmt).inherit_fmt fmt = vf.inherit_fmt fmt) ∧
    (∀ (vf : ValueField) (cfmt pfmt : ValueFieldFormatting),
      (vf.fmtCustom cfmt).inherit_fmt pfmt = vf.fmtCustom cfmt) := by
  constructor
  · intro vf fmt
    by_cases h : vf.custom_fmt <;>
      simp [ValueField.inherit_fmt, ValueField.setFmt, h]
  · intro vf cfmt pfmt
    simp [ValueField.inherit_fmt, ValueField.fmtCustom, ValueField.setFmt]

/-- C10: the value-menu container yields its fields in construction order,
exactly one per call — popping the head of the remaining list — and once
all fields are consumed every further `next_output` returns the
`NoMoreField` error without reading anything from the stream. -/
theorem C10_value_menu_order_and_exhaustion {T α : Type}
    (parse : String → Except String T) (fuel : Nat) :
    (∀ (m : ValueMenu α) (f : Field α) (rest : List (Field α)),
      m.fields = f :: rest →
      m.next_field = .ok (f, { m with fields := rest })) ∧
    (∀ (m : ValueMenu α) (ls w : List String),
      m.fields = [] →
      ((ValueMenu.next_output parse m fuel ⟨ls, w, []⟩).1).map
          (fun p => (p.1, p.2.lines)) =
        some (.err .NoMoreField, ls)) := by
  constructor
  · intro m f rest h
    simp [ValueMenu.next_field, h]
  · intro m ls w h
    simp only [ValueMenu.next_output, print_title, MenuStream.writeOp,
      MenuStream.popErr]
    by_cases hp : (!m.first_popped && m.title ≠ "") = true
    · simp only [hp, if_pos, ValueMenu.next_field, h]
      simp [ValueMenu.next_field, h]
    · simp only [hp, if_neg, ValueMenu.next_field, h]
      simp [ValueMenu.next_field, h, hp]

/-- C10 witness: the one-field fixture menu pops its single field, and
the emptied menu returns `NoMoreField` with the pending input line left
unread. -/
theorem C10_value_menu_order_and_exhaustion_witness :
    menuFix.next_field = .ok (Field.Value yearField, emptyMenuFix) ∧
    ((ValueMenu.next_output parseU32 emptyMenuFix 3
        ⟨["x"], [], []⟩).1).map (fun p => (p.1, p.2.lines)) =
      some (.err .NoMoreField, ["x"]) :=
  ⟨(C10_value_menu_order_and_exhaustion parseU32 3).1 menuFix
      (Field.Value yearField) [] (by rfl),
   (C10_value_menu_order_and_exhaustion parseU32 3).2
      emptyMenuFix ["x"] [] (by rfl)⟩

end Ezmenu
